import Mathlib

/-!
# Verification of the browser URL callback service

Shallow embedding of `SelfhostURLCallbackProvider` from
`src/vs/workbench/services/url/browser/urlService.ts` and its near-duplicate
variant (the unnamed source file), together with proofs of the specified
properties of the callback URI factory, the callback poller, and the callback
emitter.

Timing model: the poll loop issues fetch number `k` (counting from 0) at
elapsed time `k * FETCH_INTERVAL` after the session's start time: each fetch
and JSON decode is taken to be instantaneous and each `setTimeout` to fire
exactly after its fixed delay, so the `Date.now() - startTime` read by the
timeout check after fetch `k` equals `k * FETCH_INTERVAL`.  The server is
abstracted as a `transport` function giving the body of the `k`-th response
for the session's identifier.
-/

namespace UrlCallback

/-- The `UriComponents` record carried in the server's JSON payload
(`scheme`, `authority`, `path`, `query`, `fragment`); fields the payload
omits revive to the empty string. -/
structure UriComponents where
  scheme : String := ""
  authority : String := ""
  path : String := ""
  query : String := ""
  fragment : String := ""
  deriving Repr, DecidableEq

/-- The observable shape of one response body as the poll loop branches on
it: an empty buffer (`content.byteLength === 0`), a body that `JSON.parse`
decodes to a list of `UriComponents`, or a body on which `JSON.parse`
throws. -/
inductive Body where
  | empty : Body
  | valid : List UriComponents → Body
  | malformed : Body
  deriving Repr, DecidableEq

/-- `static FETCH_INTERVAL = 500;` — fetch every 500ms. -/
def FETCH_INTERVAL : Nat := 500

/-- `static FETCH_TIMEOUT = 1000 * 5;` — the code's own trailing comment
says "...but stop after 5min", yet the value is 5000ms (5 seconds). -/
def FETCH_TIMEOUT : Nat := 1000 * 5

/-- What one poll session did, in order: the elapsed time (ms since the
session's start) of every fetch attempt performed, the URIs fired on the
`_onCallback` emitter in emission order, and how many errors were passed to
`logService.error`. -/
structure PollOutcome where
  fetchTimes : List Nat
  emitted : List UriComponents
  errorsLogged : Nat
  deriving Repr, DecidableEq

/-- The poll loop `periodicFetchCallback` of the timeout-bearing variant,
at fetch number `k` of the session: request the `k`-th response; on a
non-empty body, decode and emit (or log the parse error) and return; on an
empty body, re-schedule after `FETCH_INTERVAL` unless
`Date.now() - startTime < FETCH_TIMEOUT` fails. -/
def periodicFetchCallback (transport : Nat → Body) (k : Nat) : PollOutcome :=
  match transport k with
  | Body.valid uris =>
      { fetchTimes := [k * FETCH_INTERVAL], emitted := uris, errorsLogged := 0 }
  | Body.malformed =>
      { fetchTimes := [k * FETCH_INTERVAL], emitted := [], errorsLogged := 1 }
  | Body.empty =>
      if h : k * FETCH_INTERVAL < FETCH_TIMEOUT then
        let rest := periodicFetchCallback transport (k + 1)
        { fetchTimes := k * FETCH_INTERVAL :: rest.fetchTimes,
          emitted := rest.emitted, errorsLogged := rest.errorsLogged }
      else
        { fetchTimes := [k * FETCH_INTERVAL], emitted := [], errorsLogged := 0 }
termination_by FETCH_TIMEOUT + FETCH_INTERVAL - k * FETCH_INTERVAL
decreasing_by simp only [FETCH_INTERVAL, FETCH_TIMEOUT] at *; omega

/-- The loop `doFetch` of the other variant: identical branching but with no
start time and no timeout check — on an empty body it always re-schedules
after 500ms.  Being possibly non-terminating, it is embedded with explicit
fuel; `none` means the loop was still polling when the fuel ran out. -/
def doFetch (transport : Nat → Body) : Nat → Nat → Option PollOutcome
  | 0, _ => none
  | fuel + 1, k =>
    match transport k with
    | Body.valid uris => some { fetchTimes := [k * 500], emitted := uris, errorsLogged := 0 }
    | Body.malformed => some { fetchTimes := [k * 500], emitted := [], errorsLogged := 1 }
    | Body.empty =>
      match doFetch transport fuel (k + 1) with
      | some rest =>
          some { fetchTimes := k * 500 :: rest.fetchTimes,
                 emitted := rest.emitted, errorsLogged := rest.errorsLogged }
      | none => none

/-- A transport whose every response body is empty. -/
def alwaysEmpty : Nat → Body := fun _ => Body.empty

lemma periodicFetchCallback_valid (t : Nat → Body) (k : Nat) (uris : List UriComponents)
    (h : t k = Body.valid uris) :
    periodicFetchCallback t k =
      { fetchTimes := [k * FETCH_INTERVAL], emitted := uris, errorsLogged := 0 } := by
  rw [periodicFetchCallback, h]

lemma periodicFetchCallback_malformed (t : Nat → Body) (k : Nat)
    (h : t k = Body.malformed) :
    periodicFetchCallback t k =
      { fetchTimes := [k * FETCH_INTERVAL], emitted := [], errorsLogged := 1 } := by
  rw [periodicFetchCallback, h]

lemma periodicFetchCallback_empty_lt (t : Nat → Body) (k : Nat)
    (h : t k = Body.empty) (hlt : k * FETCH_INTERVAL < FETCH_TIMEOUT) :
    periodicFetchCallback t k =
      { fetchTimes := k * FETCH_INTERVAL :: (periodicFetchCallback t (k + 1)).fetchTimes,
        emitted := (periodicFetchCallback t (k + 1)).emitted,
        errorsLogged := (periodicFetchCallback t (k + 1)).errorsLogged } := by
  rw [periodicFetchCallback, h]
  simp [hlt]

lemma periodicFetchCallback_empty_ge (t : Nat → Body) (k : Nat)
    (h : t k = Body.empty) (hge : ¬ k * FETCH_INTERVAL < FETCH_TIMEOUT) :
    periodicFetchCallback t k =
      { fetchTimes := [k * FETCH_INTERVAL], emitted := [], errorsLogged := 0 } := by
  rw [periodicFetchCallback, h]
  simp [hge]

/-- Skipping an empty prefix: while the first `N` responses from fetch `k`
on are empty and fetch `k + N` still falls inside the timeout window, the
session performs those `N` fetches at interval spacing and continues as the
session started at fetch `k + N`. -/
lemma periodicFetchCallback_skip (t : Nat → Body) :
    ∀ N k, (∀ j, j < N → t (k + j) = Body.empty) →
    (k + N) * FETCH_INTERVAL ≤ FETCH_TIMEOUT →
    periodicFetchCallback t k =
      { fetchTimes := (List.range N).map (fun j => (k + j) * FETCH_INTERVAL) ++
          (periodicFetchCallback t (k + N)).fetchTimes,
        emitted := (periodicFetchCallback t (k + N)).emitted,
        errorsLogged := (periodicFetchCallback t (k + N)).errorsLogged } := by
  intro N
  induction N with
  | zero => intro k _ _; simp
  | succ n ih =>
    intro k hempty hwin
    have hk : t k = Body.empty := by simpa using hempty 0 (Nat.succ_pos n)
    have hlt : k * FETCH_INTERVAL < FETCH_TIMEOUT := by
      have : (k + (n + 1)) * FETCH_INTERVAL = k * FETCH_INTERVAL + (n + 1) * FETCH_INTERVAL := by
        ring
      simp only [FETCH_INTERVAL, FETCH_TIMEOUT] at *
      omega
    rw [periodicFetchCallback_empty_lt t k hk hlt]
    have hrec := ih (k + 1)
      (fun j hj => by
        have := hempty (j + 1) (by omega)
        simpa [Nat.add_assoc, Nat.add_comm 1 j] using this)
      (by have : k + 1 + n = k + (n + 1) := by omega
          rw [this]; exact hwin)
    have harr : k + 1 + n = k + (n + 1) := by omega
    rw [harr] at hrec
    rw [hrec]
    simp only [PollOutcome.mk.injEq, and_true]
    simp only [List.range_succ_eq_map, List.map_cons, List.map_map, Nat.add_zero,
      List.cons_append]
    have hmap : (List.range n).map (fun j => (k + 1 + j) * FETCH_INTERVAL) =
        (List.range n).map ((fun j => (k + j) * FETCH_INTERVAL) ∘ Nat.succ) := by
      apply List.map_congr_left
      intro j _
      simp only [Function.comp_apply, Nat.succ_eq_add_one]
      ring
    rw [hmap]

/-- With every response in the timeout window empty, the session performs
`FETCH_TIMEOUT / FETCH_INTERVAL + 1` fetches at interval spacing and stops
silently: nothing emitted, nothing logged. -/
lemma periodicFetchCallback_timeout (t : Nat → Body)
    (h : ∀ k, k * FETCH_INTERVAL ≤ FETCH_TIMEOUT → t k = Body.empty) :
    periodicFetchCallback t 0 =
      { fetchTimes := (List.range (FETCH_TIMEOUT / FETCH_INTERVAL + 1)).map (· * FETCH_INTERVAL),
        emitted := [], errorsLogged := 0 } := by
  have h10 : ∀ j, j < 10 → t (0 + j) = Body.empty := by
    intro j hj
    apply h
    simp only [FETCH_INTERVAL, FETCH_TIMEOUT]
    omega
  have hskip := periodicFetchCallback_skip t 10 0 h10
    (by simp only [FETCH_INTERVAL, FETCH_TIMEOUT]; omega)
  have hend : periodicFetchCallback t (0 + 10) =
      { fetchTimes := [(0 + 10) * FETCH_INTERVAL], emitted := [], errorsLogged := 0 } := by
    apply periodicFetchCallback_empty_ge
    · exact h (0 + 10) (by simp only [FETCH_INTERVAL, FETCH_TIMEOUT]; omega)
    · simp only [FETCH_INTERVAL, FETCH_TIMEOUT]; omega
  rw [hskip, hend]
  simp only [FETCH_INTERVAL, FETCH_TIMEOUT]
  norm_num
  decide

/-- Modelled from the spec: the rendering of a revived `UriComponents` as a
URI string (`URI.revive`/`URI.toString` live in `vs/base/common/uri`, which
is not among the included sources): `scheme:`, then `//authority` when an
authority is present, then the path, `?query` and `#fragment` when
present. -/
def uriToString (u : UriComponents) : String :=
  (if u.scheme = "" then "" else u.scheme ++ ":") ++
  (if u.authority = "" then "" else "//" ++ u.authority) ++
  u.path ++
  (if u.query = "" then "" else "?" ++ u.query) ++
  (if u.fragment = "" then "" else "#" ++ u.fragment)

/-- The payload record of the spec's concrete scenario:
`{"scheme":"https","authority":"example.com","path":"/done"}`. -/
def doneUri : UriComponents := { scheme := "https", authority := "example.com", path := "/done" }

/-- The spec's concrete scenario transport for identifier `"abc123"`: empty
bodies on calls 1-3, then `[doneUri]` on call 4. -/
def abc123Transport : Nat → Body := fun k =>
  if k < 3 then Body.empty else if k = 3 then Body.valid [doneUri] else Body.empty

/-- C1: a transport answering the poller's first `N` fetches with empty
bodies and fetch `N + 1` (occurring inside the timeout window, which is what
`N * FETCH_INTERVAL ≤ FETCH_TIMEOUT` says) with a valid JSON array makes the
poller perform exactly the `N + 1` fetches at interval spacing, emit exactly
the array's decoded URIs, log nothing, and fetch no further. -/
theorem poller_first_valid_response (t : Nat → Body) (N : Nat) (uris : List UriComponents)
    (hwin : N * FETCH_INTERVAL ≤ FETCH_TIMEOUT)
    (hempty : ∀ k, k < N → t k = Body.empty)
    (hvalid : t N = Body.valid uris) :
    periodicFetchCallback t 0 =
      { fetchTimes := (List.range (N + 1)).map (· * FETCH_INTERVAL),
        emitted := uris, errorsLogged := 0 } := by
  have hskip := periodicFetchCallback_skip t N 0
    (fun j hj => by simpa using hempty j hj) (by simpa using hwin)
  have hv := periodicFetchCallback_valid t (0 + N) uris (by simpa using hvalid)
  rw [hskip, hv]
  simp [List.range_succ]

/-- C1 witness: the concrete scenario — identifier `"abc123"`, empty bodies
on calls 1-3, the one-record array on call 4: exactly 4 fetches at 0, 500,
1000 and 1500 ms, one emission, and the emitted record renders as
`https://example.com/done`. -/
theorem poller_first_valid_response_witness :
    periodicFetchCallback abc123Transport 0 =
      { fetchTimes := [0, 500, 1000, 1500], emitted := [doneUri], errorsLogged := 0 } ∧
    uriToString doneUri = "https://example.com/done" := by
  constructor
  · have h := poller_first_valid_response abc123Transport 3 [doneUri]
      (by decide) (by decide) (by decide)
    rw [h]
    simp only [FETCH_INTERVAL]
    decide
  · rfl

/-- A transport whose first eleven bodies (one full timeout window) are
empty and whose twelfth is a valid array. -/
def lateValid : Nat → Body := fun k =>
  if k < 11 then Body.empty else Body.valid [doneUri]

/-- C1 counterexample: the claim as stated puts no bound on `N`, but for
`N = 11` — a mocked transport configured to return empty bodies on calls
1-11 and a valid array on call 12 — the poller performs 11 fetch attempts,
not 12, and emits nothing: the timeout window closes before the configured
valid response is ever requested. -/
theorem poller_misses_valid_after_timeout :
    (periodicFetchCallback lateValid 0).fetchTimes.length = 11 ∧
    (periodicFetchCallback lateValid 0).emitted = [] ∧
    lateValid 11 = Body.valid [doneUri] := by
  have h := periodicFetchCallback_timeout lateValid (fun k hk => by
    have : k < 11 := by
      simp only [FETCH_INTERVAL, FETCH_TIMEOUT] at hk
      omega
    simp [lateValid, this])
  rw [h]
  refine ⟨?_, rfl, rfl⟩
  simp only [FETCH_INTERVAL, FETCH_TIMEOUT]
  decide

/-- C2: a transport whose every body is empty makes the poller fetch at
interval spacing until the elapsed time reaches the timeout, then stop
silently: no emission and no logged error (the outcome records every fetch
attempt; the full list is `0, 500, …, 5000`). -/
theorem poller_timeout_silent (t : Nat → Body) (h : ∀ k, t k = Body.empty) :
    periodicFetchCallback t 0 =
      { fetchTimes := [0, 500, 1000, 1500, 2000, 2500, 3000, 3500, 4000, 4500, 5000],
        emitted := [], errorsLogged := 0 } ∧
    List.Chain' (fun a b => b = a + FETCH_INTERVAL)
      [0, 500, 1000, 1500, 2000, 2500, 3000, 3500, 4000, 4500, 5000] ∧
    ∀ x ∈ [0, 500, 1000, 1500, 2000, 2500, 3000, 3500, 4000, 4500, 5000],
      x ≤ FETCH_TIMEOUT := by
  refine ⟨?_, by norm_num [List.chain'_cons, FETCH_INTERVAL], by decide⟩
  rw [periodicFetchCallback_timeout t (fun k _ => h k)]
  decide

/-- C2 witness: the always-empty transport, evaluated: 11 fetches at 0 to
5000 ms spaced 500 ms apart, nothing emitted, nothing logged. -/
theorem poller_timeout_silent_witness :
    periodicFetchCallback alwaysEmpty 0 =
      { fetchTimes := [0, 500, 1000, 1500, 2000, 2500, 3000, 3500, 4000, 4500, 5000],
        emitted := [], errorsLogged := 0 } ∧
    List.Chain' (fun a b => b = a + FETCH_INTERVAL)
      [0, 500, 1000, 1500, 2000, 2500, 3000, 3500, 4000, 4500, 5000] ∧
    ∀ x ∈ [0, 500, 1000, 1500, 2000, 2500, 3000, 3500, 4000, 4500, 5000],
      x ≤ FETCH_TIMEOUT :=
  poller_timeout_silent alwaysEmpty (fun _ => rfl)

/-- C3: the timeout-bearing variant's constants as the code sets them — a
500ms interval but a `1000 * 5` = 5000ms timeout, not the 5×60s = 300000ms
the claim (and the code's own trailing comment, "...but stop after 5min")
states; and the other variant's `doFetch` loop, which re-fetches every 500ms
with no timeout check at all, never stops by itself on empty bodies. -/
theorem fetch_timeout_is_five_seconds :
    FETCH_INTERVAL = 500 ∧ FETCH_TIMEOUT = 5000 ∧ FETCH_TIMEOUT ≠ 5 * 60 * 1000 ∧
    (∀ fuel k, doFetch alwaysEmpty fuel k = none) ∧
    (periodicFetchCallback alwaysEmpty 0).fetchTimes.length = 11 := by
  refine ⟨rfl, rfl, by decide, ?_, ?_⟩
  · intro fuel
    induction fuel with
    | zero => intro k; rfl
    | succ n ih => intro k; simp [doFetch, alwaysEmpty, ih (k + 1)]
  · rw [periodicFetchCallback_timeout alwaysEmpty (fun _ _ => rfl)]
    simp only [FETCH_INTERVAL, FETCH_TIMEOUT]
    decide

/-- C4: a transport whose first non-empty response body (received as fetch
`M + 1`, inside the timeout window) fails to parse makes the poller emit
nothing, log exactly one error, and stop fetching — terminating the session
just as on success, with no error surfaced to the caller (the loop returns
normally). -/
theorem poller_malformed_logs_once (t : Nat → Body) (M : Nat)
    (hwin : M * FETCH_INTERVAL ≤ FETCH_TIMEOUT)
    (hempty : ∀ k, k < M → t k = Body.empty)
    (hmal : t M = Body.malformed) :
    periodicFetchCallback t 0 =
      { fetchTimes := (List.range (M + 1)).map (· * FETCH_INTERVAL),
        emitted := [], errorsLogged := 1 } := by
  have hskip := periodicFetchCallback_skip t M 0
    (fun j hj => by simpa using hempty j hj) (by simpa using hwin)
  have hm := periodicFetchCallback_malformed t (0 + M) (by simpa using hmal)
  rw [hskip, hm]
  simp [List.range_succ]

/-- The transport of the C4 witness: empty on calls 1-2, malformed on
call 3. -/
def malformedAtThree : Nat → Body := fun k =>
  if k < 2 then Body.empty else Body.malformed

/-- C4 witness: empty bodies on calls 1-2 and a malformed body on call 3 —
three fetches, no emission, exactly one logged error. -/
theorem poller_malformed_logs_once_witness :
    periodicFetchCallback malformedAtThree 0 =
      { fetchTimes := [0, 500, 1000], emitted := [], errorsLogged := 1 } := by
  have h := poller_malformed_logs_once malformedAtThree 2
    (by decide) (by decide) (by decide)
  rw [h]
  simp only [FETCH_INTERVAL]
  decide

/-- C7: when the first non-empty response body (received inside the timeout
window) parses as a JSON array, the emitter fires exactly one callback per
decoded record, in the order the records appear in the decoded list — the
emission list equals the decoded list — and no error is logged. -/
theorem emitter_fires_in_decoded_order (t : Nat → Body) (M : Nat) (uris : List UriComponents)
    (hwin : M * FETCH_INTERVAL ≤ FETCH_TIMEOUT)
    (hempty : ∀ k, k < M → t k = Body.empty)
    (hvalid : t M = Body.valid uris) :
    (periodicFetchCallback t 0).emitted = uris ∧
    (periodicFetchCallback t 0).errorsLogged = 0 := by
  have hskip := periodicFetchCallback_skip t M 0
    (fun j hj => by simpa using hempty j hj) (by simpa using hwin)
  have hv := periodicFetchCallback_valid t (0 + M) uris (by simpa using hvalid)
  rw [hskip, hv]
  exact ⟨rfl, rfl⟩

/-- Three distinct records used to exhibit emission order. -/
def uriA : UriComponents := { scheme := "https", authority := "a.example", path := "/1" }

/-- Second record of the order witness. -/
def uriB : UriComponents := { scheme := "https", authority := "b.example", path := "/2" }

/-- Third record of the order witness. -/
def uriC : UriComponents := { scheme := "https", authority := "c.example", path := "/3" }

/-- C7 witness: a first response decoding to `[uriA, uriB, uriC]` is emitted
as exactly that list, in that order. -/
theorem emitter_fires_in_decoded_order_witness :
    (periodicFetchCallback (fun _ => Body.valid [uriA, uriB, uriC]) 0).emitted =
      [uriA, uriB, uriC] ∧
    (periodicFetchCallback (fun _ => Body.valid [uriA, uriB, uriC]) 0).errorsLogged = 0 :=
  emitter_fires_in_decoded_order (fun _ => Body.valid [uriA, uriB, uriC]) 0
    [uriA, uriB, uriC] (by decide) (fun k hk => absurd hk (Nat.not_lt_zero k)) rfl

/-- C8: the only ways a poll session terminates.  Either some fetch inside
the timeout window gets a non-empty body — then the session runs exactly to
that fetch and stops — or every fetch in the window gets an empty body and
the session runs out the full window and stops silently.  The loop threads
no cancellation token: `periodicFetchCallback` has no input that could abort
it, so its outcome is a total function of the transport alone, and while
bodies stay empty below the timeout the next fetch is always scheduled (both
disjuncts' fetch lists are closed under that schedule). -/
theorem poll_session_dichotomy (t : Nat → Body) :
    (∃ M, M * FETCH_INTERVAL ≤ FETCH_TIMEOUT ∧ (∀ k, k < M → t k = Body.empty) ∧
      t M ≠ Body.empty ∧
      (periodicFetchCallback t 0).fetchTimes = (List.range (M + 1)).map (· * FETCH_INTERVAL)) ∨
    ((∀ k, k * FETCH_INTERVAL ≤ FETCH_TIMEOUT → t k = Body.empty) ∧
      (periodicFetchCallback t 0).fetchTimes =
        (List.range (FETCH_TIMEOUT / FETCH_INTERVAL + 1)).map (· * FETCH_INTERVAL) ∧
      (periodicFetchCallback t 0).emitted = [] ∧
      (periodicFetchCallback t 0).errorsLogged = 0) := by
  by_cases hx : ∀ k, k * FETCH_INTERVAL ≤ FETCH_TIMEOUT → t k = Body.empty
  · right
    have h0 := periodicFetchCallback_timeout t hx
    exact ⟨hx, by rw [h0], by rw [h0], by rw [h0]⟩
  · left
    push_neg at hx
    obtain ⟨k0, hk0win, hk0⟩ := hx
    have hex : ∃ k, t k ≠ Body.empty := ⟨k0, hk0⟩
    refine ⟨Nat.find hex, ?_, ?_, Nat.find_spec hex, ?_⟩
    · exact le_trans (Nat.mul_le_mul_right _ (Nat.find_min' hex hk0)) hk0win
    · intro k hk
      have := Nat.find_min hex hk
      simpa [not_not] using this
    · have hmin : ∀ j, j < Nat.find hex → t (0 + j) = Body.empty := by
        intro j hj
        have := Nat.find_min hex hj
        simpa [not_not] using this
      have hwin : (0 + Nat.find hex) * FETCH_INTERVAL ≤ FETCH_TIMEOUT := by
        simpa using le_trans (Nat.mul_le_mul_right _ (Nat.find_min' hex hk0)) hk0win
      have hskip := periodicFetchCallback_skip t (Nat.find hex) 0 hmin hwin
      rw [hskip]
      cases hbody : t (0 + Nat.find hex) with
      | empty =>
          exact absurd (by simpa using hbody) (Nat.find_spec hex)
      | valid uris =>
          rw [periodicFetchCallback_valid t (0 + Nat.find hex) uris hbody]
          simp [List.range_succ]
      | malformed =>
          rw [periodicFetchCallback_malformed t (0 + Nat.find hex) hbody]
          simp [List.range_succ]

/-- C8 witness: the dichotomy evaluated at the always-empty transport. -/
theorem poll_session_dichotomy_witness :
    (∃ M, M * FETCH_INTERVAL ≤ FETCH_TIMEOUT ∧
      (∀ k, k < M → alwaysEmpty k = Body.empty) ∧ alwaysEmpty M ≠ Body.empty ∧
      (periodicFetchCallback alwaysEmpty 0).fetchTimes =
        (List.range (M + 1)).map (· * FETCH_INTERVAL)) ∨
    ((∀ k, k * FETCH_INTERVAL ≤ FETCH_TIMEOUT → alwaysEmpty k = Body.empty) ∧
      (periodicFetchCallback alwaysEmpty 0).fetchTimes =
        (List.range (FETCH_TIMEOUT / FETCH_INTERVAL + 1)).map (· * FETCH_INTERVAL) ∧
      (periodicFetchCallback alwaysEmpty 0).emitted = [] ∧
      (periodicFetchCallback alwaysEmpty 0).errorsLogged = 0) :=
  poll_session_dichotomy alwaysEmpty

/-! ## Percent-encoding

`encodeURIComponent` is the host's builtin; it is embedded by its standard
behaviour: every character outside the unreserved set (letters, digits, and
`- _ . ! ~ * ' ( )`) is replaced by the `%XX` hexadecimal escapes of the
bytes of its UTF-8 encoding.  `decodeURIComponent` is its inverse. -/

/-- One hexadecimal digit, upper case, as `%XX` escapes use. -/
def hexChar (n : Nat) : Char :=
  if n = 0 then '0' else if n = 1 then '1' else if n = 2 then '2' else if n = 3 then '3'
  else if n = 4 then '4' else if n = 5 then '5' else if n = 6 then '6' else if n = 7 then '7'
  else if n = 8 then '8' else if n = 9 then '9' else if n = 10 then 'A' else if n = 11 then 'B'
  else if n = 12 then 'C' else if n = 13 then 'D' else if n = 14 then 'E' else 'F'

/-- The UTF-8 encoding of a code point, as a byte list. -/
def utf8EncodeNat (n : Nat) : List Nat :=
  if n < 128 then [n]
  else if n < 2048 then [192 + n / 64, 128 + n % 64]
  else if n < 65536 then [224 + n / 4096, 128 + n / 64 % 64, 128 + n % 64]
  else [240 + n / 262144, 128 + n / 4096 % 64, 128 + n / 64 % 64, 128 + n % 64]

/-- The characters `encodeURIComponent` leaves unescaped: ASCII letters and
digits and `- _ . ! ~ * ' ( )` (code points 45, 95, 46, 33, 126, 42, 39,
40, 41). -/
def isUnreserved (c : Char) : Bool :=
  decide ((48 ≤ c.toNat ∧ c.toNat ≤ 57) ∨ (65 ≤ c.toNat ∧ c.toNat ≤ 90) ∨
    (97 ≤ c.toNat ∧ c.toNat ≤ 122) ∨ c.toNat = 45 ∨ c.toNat = 95 ∨ c.toNat = 46 ∨
    c.toNat = 33 ∨ c.toNat = 126 ∨ c.toNat = 42 ∨ c.toNat = 39 ∨ c.toNat = 40 ∨ c.toNat = 41)

/-- The `%XX` escape of one byte. -/
def percentByte (b : Nat) : List Char := ['%', hexChar (b / 16), hexChar (b % 16)]

/-- How `encodeURIComponent` renders one character: itself when unreserved,
otherwise the `%XX` escapes of its UTF-8 bytes. -/
def encodeChar (c : Char) : List Char :=
  if isUnreserved c then [c] else List.flatten ((utf8EncodeNat c.toNat).map percentByte)

/-- The host's `encodeURIComponent`. -/
def encodeURIComponent (s : String) : String :=
  String.mk (List.flatten (s.data.map encodeChar))

/-- `IURLCreateOptions`: the optional `path`, `query`, `fragment` fields
(`none` embeds JavaScript `undefined`). -/
structure IURLCreateOptions where
  path : Option String := none
  query : Option String := none
  fragment : Option String := none
  deriving Repr, DecidableEq

/-- The query string `create` builds: `vscode-id=` then the identifier
verbatim, then one `&<key>=<encoded value>` per truthy optional field, in
the source's order path, query, fragment. -/
def createQuery (identifier : String) (options : Option IURLCreateOptions) : String :=
  let opts := match options with
    | some o => o
    | none => { path := none, query := none, fragment := none }
  let q0 := "vscode-id=" ++ identifier
  let q1 := match opts.path with
    | some p => if p = "" then q0 else q0 ++ "&vscode-path=" ++ encodeURIComponent p
    | none => q0
  let q2 := match opts.query with
    | some s => if s = "" then q1 else q1 ++ "&vscode-query=" ++ encodeURIComponent s
    | none => q1
  match opts.fragment with
  | some f => if f = "" then q2 else q2 ++ "&vscode-fragment=" ++ encodeURIComponent f
  | none => q2

/-- `create`: the returned callback URI (its raw string, parsed by the
caller with `URI.parse`) paired with the poll session the call starts as a
side effect before returning (`this.doFetch(identifier)` /
`this.periodicFetchCallback(identifier, Date.now())`). -/
def create (origin identifier : String) (options : Option IURLCreateOptions)
    (transport : Nat → Body) : String × PollOutcome :=
  (origin ++ "/callback?" ++ createQuery identifier options, periodicFetchCallback transport 0)

/-- The fetch-callback request URL:
`<origin>/fetch-callback?vscode-id=<identifier>`, the identifier again
verbatim (both variants: the template literal in `doFetch`, and
`doCreateUri(identifier, 'fetch-callback')` whose payload-less query is
`vscode-id=${identifier}`). -/
def fetchCallbackUrl (origin identifier : String) : String :=
  origin ++ "/fetch-callback?vscode-id=" ++ identifier

/-- The payload `Map` the unnamed variant's `create` fills (iteration in
insertion order: path, query, fragment, truthy fields only) and hands to
`doCreateUri`, which appends each entry as `&<key>=<value>` with the raw
value. -/
def truthyPairs (options : Option IURLCreateOptions) : List (String × String) :=
  let opts := match options with
    | some o => o
    | none => { path := none, query := none, fragment := none }
  (match opts.path with
    | some p => if p = "" then [] else [("vscode-path", p)]
    | none => []) ++
  (match opts.query with
    | some s => if s = "" then [] else [("vscode-query", s)]
    | none => []) ++
  (match opts.fragment with
    | some f => if f = "" then [] else [("vscode-fragment", f)]
    | none => [])

/-- The unnamed variant's `doCreateUri` query builder: start from
`vscode-id=<identifier>` and append `&<key>=<value>` per payload entry. -/
def doCreateUriQuery (identifier : String) (payload : List (String × String)) : String :=
  payload.foldl (fun q kv => q ++ "&" ++ kv.1 ++ "=" ++ kv.2) ("vscode-id=" ++ identifier)

/-! ## Parsing a query string

`splitQuery` is the standard reading of a query string (as
`URLSearchParams` does, without the decoding step): components are
separated by `&`, and each component is split at its first `=` into key and
value. -/

/-- Split a character list at every `&`. -/
def splitAmp : List Char → List (List Char)
  | [] => [[]]
  | c :: t =>
    if c = '&' then [] :: splitAmp t
    else
      match splitAmp t with
      | [] => [[c]]
      | h :: r => (c :: h) :: r

/-- Split one component at its first `=` into key and value (a component
with no `=` is all key). -/
def splitAtEq : List Char → List Char × List Char
  | [] => ([], [])
  | c :: t =>
    if c = '=' then ([], t)
    else
      let p := splitAtEq t
      (c :: p.1, p.2)

/-- The key-value pairs of a query string. -/
def splitQuery (q : String) : List (String × String) :=
  (splitAmp q.data).map (fun comp => (String.mk (splitAtEq comp).1, String.mk (splitAtEq comp).2))

lemma data_append (a b : String) : (a ++ b).data = a.data ++ b.data := rfl

lemma splitAmp_cons (c : Char) (t : List Char) :
    splitAmp (c :: t) =
      if c = '&' then [] :: splitAmp t
      else
        match splitAmp t with
        | [] => [[c]]
        | h :: r => (c :: h) :: r := by
  rw [splitAmp]

lemma splitAmp_ne_nil (l : List Char) : splitAmp l ≠ [] := by
  cases l with
  | nil => simp [splitAmp]
  | cons c t =>
    rw [splitAmp_cons]
    split_ifs
    · simp
    · cases splitAmp t <;> simp

lemma splitAmp_two_of_mem (l : List Char) (h : '&' ∈ l) : 2 ≤ (splitAmp l).length := by
  induction l with
  | nil => simp at h
  | cons c t ih =>
    rw [splitAmp_cons]
    by_cases hc : c = '&'
    · rw [if_pos hc]
      have := splitAmp_ne_nil t
      have : 1 ≤ (splitAmp t).length := List.length_pos.mpr this
      simp only [List.length_cons]
      omega
    · rw [if_neg hc]
      have hmem : '&' ∈ t := by
        rcases List.mem_cons.mp h with h1 | h1
        · exact absurd h1.symm hc
        · exact h1
      have h2 := ih hmem
      cases hsplit : splitAmp t with
      | nil => exact absurd hsplit (splitAmp_ne_nil t)
      | cons x r =>
        rw [hsplit] at h2
        simpa using h2

lemma periodicFetchCallback_head (t : Nat → Body) (k : Nat) :
    (periodicFetchCallback t k).fetchTimes.head? = some (k * FETCH_INTERVAL) ∧
    1 ≤ (periodicFetchCallback t k).fetchTimes.length := by
  cases hb : t k with
  | empty =>
    by_cases hlt : k * FETCH_INTERVAL < FETCH_TIMEOUT
    · rw [periodicFetchCallback_empty_lt t k hb hlt]
      simp
    · rw [periodicFetchCallback_empty_ge t k hb hlt]
      simp
  | valid uris =>
    rw [periodicFetchCallback_valid t k uris hb]
    simp
  | malformed =>
    rw [periodicFetchCallback_malformed t k hb]
    simp

/-- C6: every call to `create` — for any origin, identifier, options and
transport — both returns the callback URI and starts the poll session: the
session's first fetch is issued immediately (elapsed time 0), at least one
fetch always occurs, and the returned value carries both the URI and the
session's outcome, so a caller cannot obtain the URI without the polling
side effect. -/
theorem create_starts_poll_session (origin identifier : String)
    (options : Option IURLCreateOptions) (transport : Nat → Body) :
    (create origin identifier options transport).2 = periodicFetchCallback transport 0 ∧
    (create origin identifier options transport).2.fetchTimes.head? = some 0 ∧
    1 ≤ (create origin identifier options transport).2.fetchTimes.length ∧
    (create origin identifier options transport).1 =
      origin ++ "/callback?" ++ createQuery identifier options := by
  have h := periodicFetchCallback_head transport 0
  exact ⟨rfl, by simpa using h.1, h.2, rfl⟩

/-- C9: providing an optional field as the empty string is indistinguishable
from omitting it — `if (path)` is a truthiness test, and `""` is falsy — in
both variants' query construction. -/
theorem empty_option_equals_omitted (identifier : String) (o : IURLCreateOptions) :
    createQuery identifier (some { o with path := some "" }) =
      createQuery identifier (some { o with path := none }) ∧
    createQuery identifier (some { o with query := some "" }) =
      createQuery identifier (some { o with query := none }) ∧
    createQuery identifier (some { o with fragment := some "" }) =
      createQuery identifier (some { o with fragment := none }) ∧
    createQuery identifier (some { path := some "", query := some "", fragment := some "" }) =
      createQuery identifier none ∧
    truthyPairs (some { path := some "", query := some "", fragment := some "" }) =
      truthyPairs none := by
  refine ⟨?_, ?_, ?_, rfl, rfl⟩ <;> rcases o with ⟨p, q, f⟩ <;> rfl

/-- C10 (amended: the consequence holds for identifiers containing `&`; an
identifier containing only `=` still parses as a single correct pair under
standard first-`=` splitting, see the counterexample): the identifier is
interpolated verbatim — never percent-encoded — into both the produced
callback URI's query and the fetch-callback request URL, and for any
identifier containing `&` the query string parses into extra pairs rather
than the single `vscode-id` pair. -/
theorem identifier_interpolated_verbatim (origin identifier : String)
    (h : '&' ∈ identifier.data) :
    createQuery identifier none = "vscode-id=" ++ identifier ∧
    doCreateUriQuery identifier [] = "vscode-id=" ++ identifier ∧
    fetchCallbackUrl origin identifier =
      origin ++ "/fetch-callback?vscode-id=" ++ identifier ∧
    splitQuery (createQuery identifier none) ≠ [("vscode-id", identifier)] := by
  refine ⟨rfl, rfl, rfl, ?_⟩
  intro hcontra
  have hmem : '&' ∈ (createQuery identifier none).data := by
    rw [show createQuery identifier none = "vscode-id=" ++ identifier from rfl, data_append]
    exact List.mem_append.mpr (Or.inr h)
  have h2 := splitAmp_two_of_mem _ hmem
  have hlen := congrArg List.length hcontra
  rw [splitQuery] at hlen
  simp only [List.length_map, List.length_cons, List.length_nil] at hlen
  omega

/-- C10 witness: identifier `"x&y"` — interpolated verbatim everywhere, and
its query parses into two pairs instead of one. -/
theorem identifier_interpolated_verbatim_witness :
    createQuery "x&y" none = "vscode-id=" ++ "x&y" ∧
    doCreateUriQuery "x&y" [] = "vscode-id=" ++ "x&y" ∧
    fetchCallbackUrl "https://host" "x&y" =
      "https://host" ++ "/fetch-callback?vscode-id=" ++ "x&y" ∧
    splitQuery (createQuery "x&y" none) ≠ [("vscode-id", "x&y")] :=
  identifier_interpolated_verbatim "https://host" "x&y" (by decide)

/-- C10 counterexample: the claim as stated also covers identifiers
containing `=`, but identifier `"a=b"` yields the query `vscode-id=a=b`,
which parses (splitting each component at its first `=`) into exactly one
pair whose key is `vscode-id` and whose value equals the identifier — no
extra and no altered pair. -/
theorem identifier_equals_sign_benign :
    '=' ∈ ("a=b" : String).data ∧
    splitQuery (createQuery "a=b" none) = [("vscode-id", "a=b")] := by
  constructor
  · decide
  · decide

end UrlCallback
